import Mathlib

/-!
Verification of the trade execution/simulation kernel of a crypto trading bot.

The development shallowly embeds three runners that share the same financial
semantics:
* `BacktestEngine` (src/backtesting/engine.py) — batch replay over a bar table;
* `PaperTradingValidator` (src/trading/paper_validator.py) — validation replay;
* `LiveTradingEngine` (src/trading/live_engine.py) — one iteration of the live
  polling loop, modelled in PAPER mode for a fixed `base/quote` symbol.

Python floats are modelled as rationals (`ℚ`), timestamps as naturals.
Python truthiness tests on optional floats (`if signal.stop_loss:`) are
modelled by `truthy`.  External collaborators (the strategy, the indicator
computation, the market-data fetch) are parameters: a strategy is a function
from the bar index to the `TradeSignal` it returns for that index of the
fixed annotated table.
-/

namespace CryptoBot

/-- Trading signal action (`Signal` enum in strategies/base.py). -/
inductive Sig
  | buy
  | sell
  | hold
deriving DecidableEq

/-- A strategy's `TradeSignal` (strategies/base.py); the open-ended metadata
bag is not read by the kernel except for the stop-loss/take-profit fields. -/
structure TradeSignal where
  signal : Sig
  strength : ℚ := 1
  stop_loss : Option ℚ := none
  take_profit : Option ℚ := none
deriving DecidableEq

/-- Python truthiness of an optional float: `None` and `0.0` are falsy. -/
def truthy : Option ℚ → Bool
  | none => false
  | some x => decide (x ≠ 0)

/-- Position direction. -/
inductive PosSide
  | long
  | short
deriving DecidableEq

/-- Order direction used when filling. -/
inductive OrderSide
  | buy
  | sell
deriving DecidableEq

/-- One OHLCV bar of the annotated table.  The engine loop reads only the
timestamp, high, low and close columns, so the model carries only those. -/
structure Bar where
  timestamp : ℕ
  high : ℚ
  low : ℚ
  close : ℚ
deriving DecidableEq

/-- A completed round trip (`Trade` dataclass in backtesting/engine.py). -/
structure Trade where
  entry_time : ℕ
  exit_time : ℕ
  side : PosSide
  entry_price : ℚ
  exit_price : ℚ
  quantity : ℚ
  pnl : ℚ
  pnl_percent : ℚ
  fee : ℚ
deriving DecidableEq

/-- An open position (`Position` dataclass in backtesting/engine.py).  The
stop-loss/take-profit entries of the metadata dict are modelled as the two
optional fields; `run` stores them from the entry signal. -/
structure Position where
  side : PosSide
  entry_time : ℕ
  entry_price : ℚ
  quantity : ℚ
  entry_fee : ℚ
  stop_loss : Option ℚ := none
  take_profit : Option ℚ := none
deriving DecidableEq

/-- One point of the equity curve, as appended by `BacktestEngine.run`. -/
structure EquityPoint where
  timestamp : ℕ
  equity : ℚ
  capital : ℚ
  price : ℚ
  position : Option PosSide
deriving DecidableEq

/-- Engine parameters after `BacktestEngine.__init__` ran: the percent inputs
are already divided by 100 and the position size is already clamped. -/
structure EngineConfig where
  initial_capital : ℚ
  fee_percent : ℚ
  slippage_percent : ℚ
  position_size : ℚ
deriving DecidableEq

/-- The conversion done by `BacktestEngine.__init__`: percentages become
fractions and the position size is clamped to `[0.01, 1.0]`. -/
def mkEngineConfig (initial_capital fee_percent slippage_percent position_size : ℚ) :
    EngineConfig :=
  { initial_capital := initial_capital
    fee_percent := fee_percent / 100
    slippage_percent := slippage_percent / 100
    position_size := min 1 (max (1 / 100) position_size) }

/-- Mutable engine state (`self.capital`, `self.position`, `self.trades`,
`self.equity_curve`). -/
structure EngineState where
  capital : ℚ
  position : Option Position
  trades : List Trade
  equity_curve : List EquityPoint
deriving DecidableEq

/-- `BacktestEngine._reset`. -/
def resetState (cfg : EngineConfig) : EngineState :=
  { capital := cfg.initial_capital, position := none, trades := [], equity_curve := [] }

/-- `BacktestEngine._apply_slippage`. -/
def applySlippage (cfg : EngineConfig) (price : ℚ) (side : OrderSide) : ℚ :=
  match side with
  | .buy => price * (1 + cfg.slippage_percent)
  | .sell => price * (1 - cfg.slippage_percent)

/-- `BacktestEngine._calculate_fee`. -/
def calculateFee (cfg : EngineConfig) (amount : ℚ) : ℚ :=
  amount * cfg.fee_percent

/-- `BacktestEngine._open_position`.  The entry signal's metadata copy is not
modelled; the stop-loss/take-profit entries are stored by the caller
(`stepBar`, mirroring `run`). -/
def openPosition (cfg : EngineConfig) (st : EngineState) (timestamp : ℕ)
    (price : ℚ) (side : PosSide) : EngineState :=
  let exec_price := applySlippage cfg price (if side = PosSide.long then .buy else .sell)
  let trade_capital := st.capital * cfg.position_size
  let fee := calculateFee cfg trade_capital
  let available := trade_capital - fee
  let quantity := available / exec_price
  { st with
    position := some ({ side := side, entry_time := timestamp,
                        entry_price := exec_price, quantity := quantity,
                        entry_fee := fee } : Position) }

/-- Body of `BacktestEngine._close_position` on the path where a position is
open (after the `if not self.position: raise` guard). -/
def closePositionPos (cfg : EngineConfig) (st : EngineState) (pos : Position)
    (timestamp : ℕ) (price : ℚ) : EngineState × Trade :=
  let side : OrderSide := if pos.side = PosSide.long then .sell else .buy
  let exec_price := applySlippage cfg price side
  let gross_pnl :=
    if pos.side = PosSide.long then (exec_price - pos.entry_price) * pos.quantity
    else (pos.entry_price - exec_price) * pos.quantity
  let exit_value := pos.quantity * exec_price
  let exit_fee := calculateFee cfg exit_value
  let total_fee := pos.entry_fee + exit_fee
  let net_pnl := gross_pnl - total_fee
  let entry_value := pos.quantity * pos.entry_price
  let pnl_percent := net_pnl / entry_value * 100
  let trade : Trade :=
    { entry_time := pos.entry_time, exit_time := timestamp, side := pos.side,
      entry_price := pos.entry_price, exit_price := exec_price,
      quantity := pos.quantity, pnl := net_pnl, pnl_percent := pnl_percent,
      fee := total_fee }
  ({ st with capital := st.capital + net_pnl,
             trades := st.trades ++ [trade],
             position := none }, trade)

/-- The typed error raised by `_close_position` with no open position
(`ValueError("No position to close")`). -/
inductive CloseError
  | noPosition
deriving DecidableEq

/-- `BacktestEngine._close_position`: raising is modelled as `Except.error`;
the error branch returns before any state is produced, so the caller's state
is unchanged by it. -/
def closePosition (cfg : EngineConfig) (st : EngineState) (timestamp : ℕ)
    (price : ℚ) : Except CloseError (EngineState × Trade) :=
  match st.position with
  | none => .error .noPosition
  | some pos => .ok (closePositionPos cfg st pos timestamp price)

/-- `BacktestEngine._calculate_equity`. -/
def calculateEquity (st : EngineState) (price : ℚ) : ℚ :=
  match st.position with
  | none => st.capital
  | some pos =>
    if pos.side = PosSide.long then
      st.capital + (price - pos.entry_price) * pos.quantity
    else
      st.capital + (pos.entry_price - price) * pos.quantity

/-- Appending one equity-curve record, as both branches of the `run` loop do. -/
def appendEquity (st : EngineState) (timestamp : ℕ) (close : ℚ) : EngineState :=
  { st with equity_curve := st.equity_curve ++
      [{ timestamp := timestamp, equity := calculateEquity st close,
         capital := st.capital, price := close,
         position := st.position.map (fun p => p.side) }] }

/-- Storing the entry signal's stop-loss/take-profit onto the fresh position
(`run`, right after `_open_position`); only truthy values are stored. -/
def storeRisk (st : EngineState) (sig : TradeSignal) : EngineState :=
  match st.position with
  | none => st
  | some pos =>
    let pos1 := if truthy sig.stop_loss then { pos with stop_loss := sig.stop_loss } else pos
    let pos2 := if truthy sig.take_profit then { pos1 with take_profit := sig.take_profit } else pos1
    { st with position := some pos2 }

/-- The signal phase of one iteration of the `run` loop: obtain the bar's
signal from the strategy, open a long on BUY with no open position (storing
the signal's risk levels), close on SELL with an open position. -/
def stepSignal (cfg : EngineConfig) (analyze : ℕ → TradeSignal) (i : ℕ)
    (bar : Bar) (st : EngineState) : EngineState :=
  let sig := analyze i
  if sig.signal = Sig.buy ∧ st.position = none then
    storeRisk (openPosition cfg st bar.timestamp bar.close PosSide.long) sig
  else if sig.signal = Sig.sell ∧ st.position ≠ none then
    match st.position with
    | some pos => (closePositionPos cfg st pos bar.timestamp bar.close).1
    | none => st
  else st

/-- The risk-trigger and signal phases of one iteration of the `run` loop,
without the unconditional equity append.  Stop-loss is checked first (long
positions with a truthy stored stop), then take-profit; if either fires the
position is closed at the trigger price and the bar's signal is never
evaluated (the `continue`).  Otherwise the signal phase runs. -/
def stepBarCore (cfg : EngineConfig) (analyze : ℕ → TradeSignal) (i : ℕ)
    (bar : Bar) (st : EngineState) : EngineState :=
  match st.position with
  | some pos =>
    if pos.side = PosSide.long ∧ truthy pos.stop_loss ∧ bar.low ≤ pos.stop_loss.getD 0 then
      (closePositionPos cfg st pos bar.timestamp (pos.stop_loss.getD 0)).1
    else if truthy pos.take_profit ∧ pos.take_profit.getD 0 ≤ bar.high then
      (closePositionPos cfg st pos bar.timestamp (pos.take_profit.getD 0)).1
    else stepSignal cfg analyze i bar st
  | none => stepSignal cfg analyze i bar st

/-- One full iteration of the `run` loop over bar index `i`: both the
triggered path and the signal path end by appending exactly one equity
record for the bar. -/
def stepBar (cfg : EngineConfig) (analyze : ℕ → TradeSignal) (i : ℕ)
    (bar : Bar) (st : EngineState) : EngineState :=
  appendEquity (stepBarCore cfg analyze i bar st) bar.timestamp bar.close

/-- The `for i in range(min_history, len(df))` loop of `BacktestEngine.run`. -/
def runLoop (cfg : EngineConfig) (analyze : ℕ → TradeSignal) :
    List (ℕ × Bar) → EngineState → EngineState
  | [], st => st
  | (i, bar) :: rest, st => runLoop cfg analyze rest (stepBar cfg analyze i bar st)

/-- Pairing each bar with its index in the full table, starting at `n`. -/
def indexedFrom (n : ℕ) : List Bar → List (ℕ × Bar)
  | [] => []
  | b :: bs => (n, b) :: indexedFrom (n + 1) bs

/-- `BacktestEngine.run` on an annotated bar table: reset, iterate the
per-bar step from `min_history`, and finally force-close any open position
at the last bar's close. -/
def run (cfg : EngineConfig) (analyze : ℕ → TradeSignal) (min_history : ℕ)
    (bars : List Bar) : EngineState :=
  let st0 := resetState cfg
  let st1 := runLoop cfg analyze (indexedFrom min_history (bars.drop min_history)) st0
  match st1.position, bars.getLast? with
  | some pos, some lastBar => (closePositionPos cfg st1 pos lastBar.timestamp lastBar.close).1
  | _, _ => st1

/-- `BacktestResult`, restricted to the fields the derived accessors and the
consistency comparator read. -/
structure BacktestResultR where
  initial_capital : ℚ
  final_capital : ℚ
  trades : List Trade
deriving DecidableEq

/-- `BacktestResult.total_return`. -/
def total_return (r : BacktestResultR) : ℚ :=
  (r.final_capital - r.initial_capital) / r.initial_capital

/-- `BacktestResult.total_return_pct`. -/
def total_return_pct (r : BacktestResultR) : ℚ :=
  total_return r * 100

/-- `BacktestResult.num_trades`. -/
def num_trades (r : BacktestResultR) : ℕ :=
  r.trades.length

/-- `BacktestResult.winning_trades`. -/
def winning_trades (r : BacktestResultR) : ℕ :=
  r.trades.countP (fun t => decide (0 < t.pnl))

/-- `BacktestResult.win_rate`: 0 on an empty trade list, else the winning
share as a percentage. -/
def win_rate (r : BacktestResultR) : ℚ :=
  if r.trades = [] then 0
  else (winning_trades r : ℚ) / (r.trades.length : ℚ) * 100

/-- A simulated paper trade (`PaperTrade` in trading/paper_validator.py). -/
structure PaperTrade where
  entry_time : ℕ
  exit_time : Option ℕ
  side : String
  entry_price : ℚ
  exit_price : Option ℚ
  quantity : ℚ
  pnl : Option ℚ := none
  pnl_percent : Option ℚ := none
  fee : ℚ := 0
  exit_reason : String := ""
deriving DecidableEq

/-- The position dict built by `PaperTradingValidator.run` on a BUY. -/
structure VPosition where
  entry_time : ℕ
  entry_price : ℚ
  quantity : ℚ
  entry_fee : ℚ
  stop_loss : Option ℚ
  take_profit : Option ℚ
deriving DecidableEq

/-- Validator parameters after `PaperTradingValidator.__init__` ran: the
percent inputs are already divided by 100, the position size clamped. -/
structure ValidatorConfig where
  initial_balance : ℚ
  fee_pct : ℚ
  slippage_pct : ℚ
  position_size : ℚ
deriving DecidableEq

/-- One entry of the validator's per-bar signal log. -/
structure SignalLogEntry where
  index : ℕ
  timestamp : ℕ
  signal : Sig
  strength : ℚ
deriving DecidableEq

/-- The local accumulators of `PaperTradingValidator.run`. -/
structure VState where
  balance : ℚ
  position : Option VPosition
  trades : List PaperTrade
  equity_log : List (ℕ × ℚ)
  signals_log : List SignalLogEntry
deriving DecidableEq

/-- `PaperTradingValidator._close`: returns the updated balance together
with the completed `PaperTrade` (no slippage is applied here; callers pass
an exit price with slippage already applied). -/
def vClose (cfg : ValidatorConfig) (pos : VPosition) (ts : ℕ) (exit_price : ℚ)
    (balance : ℚ) (reason : String) : ℚ × PaperTrade :=
  let gross_pnl := (exit_price - pos.entry_price) * pos.quantity
  let exit_value := pos.quantity * exit_price
  let exit_fee := exit_value * cfg.fee_pct
  let total_fee := pos.entry_fee + exit_fee
  let net_pnl := gross_pnl - total_fee
  let entry_value := pos.quantity * pos.entry_price
  let pnl_pct := if entry_value ≠ 0 then net_pnl / entry_value * 100 else 0
  (balance + net_pnl,
   { entry_time := pos.entry_time, exit_time := some ts, side := "long",
     entry_price := pos.entry_price, exit_price := some exit_price,
     quantity := pos.quantity, pnl := some net_pnl, pnl_percent := some pnl_pct,
     fee := total_fee, exit_reason := reason })

/-- The signal phase of one validator-loop iteration: the signal for index
`i` is logged and then processed (open on BUY with no position, close with
reason `"signal"` on SELL with a position). -/
def vStepSignal (cfg : ValidatorConfig) (analyze : ℕ → TradeSignal) (i : ℕ)
    (bar : Bar) (st : VState) : VState :=
  let sig := analyze i
  let st1 := { st with signals_log := st.signals_log ++
      [{ index := i, timestamp := bar.timestamp, signal := sig.signal,
         strength := sig.strength }] }
  if sig.signal = Sig.buy ∧ st1.position = none then
    let exec_price := bar.close * (1 + cfg.slippage_pct)
    let trade_cap := st1.balance * cfg.position_size
    let fee := trade_cap * cfg.fee_pct
    let qty := (trade_cap - fee) / exec_price
    { st1 with
      position := some ({ entry_time := bar.timestamp, entry_price := exec_price,
                          quantity := qty, entry_fee := fee,
                          stop_loss := sig.stop_loss,
                          take_profit := sig.take_profit } : VPosition) }
  else if sig.signal = Sig.sell ∧ st1.position ≠ none then
    match st1.position with
    | some pos =>
      let exec_price := bar.close * (1 - cfg.slippage_pct)
      let bt := vClose cfg pos bar.timestamp exec_price st1.balance "signal"
      { st1 with balance := bt.1, trades := st1.trades ++ [bt.2], position := none }
    | none => st1
  else st1

/-- The risk-trigger and signal phases of one iteration of the
`PaperTradingValidator.run` loop, without the unconditional equity append:
a truthy stored stop-loss breached by the bar low closes first (exit price
`sl * (1 - slippage)`, reason `"stop_loss"`), then take-profit; on either
trigger the bar's signal is never evaluated and nothing is logged for it
(the `continue`).  Otherwise the signal phase runs. -/
def vStepCore (cfg : ValidatorConfig) (analyze : ℕ → TradeSignal) (i : ℕ)
    (bar : Bar) (st : VState) : VState :=
  match st.position with
  | some pos =>
    if truthy pos.stop_loss ∧ bar.low ≤ pos.stop_loss.getD 0 then
      let exit_price := pos.stop_loss.getD 0 * (1 - cfg.slippage_pct)
      let bt := vClose cfg pos bar.timestamp exit_price st.balance "stop_loss"
      { st with balance := bt.1, trades := st.trades ++ [bt.2], position := none }
    else if truthy pos.take_profit ∧ pos.take_profit.getD 0 ≤ bar.high then
      let exit_price := pos.take_profit.getD 0 * (1 - cfg.slippage_pct)
      let bt := vClose cfg pos bar.timestamp exit_price st.balance "take_profit"
      { st with balance := bt.1, trades := st.trades ++ [bt.2], position := none }
    else vStepSignal cfg analyze i bar st
  | none => vStepSignal cfg analyze i bar st

/-- The equity record appended for the bar: balance plus unrealized P&L of
the open position at the bar close (on the triggered path the position is
already cleared, so the equity is just the balance — as in the source). -/
def vAppendEquity (st : VState) (timestamp : ℕ) (close : ℚ) : VState :=
  let equity :=
    match st.position with
    | some pos => st.balance + (close - pos.entry_price) * pos.quantity
    | none => st.balance
  { st with equity_log := st.equity_log ++ [(timestamp, equity)] }

/-- One full iteration of the `PaperTradingValidator.run` loop. -/
def vStep (cfg : ValidatorConfig) (analyze : ℕ → TradeSignal) (i : ℕ)
    (bar : Bar) (st : VState) : VState :=
  vAppendEquity (vStepCore cfg analyze i bar st) bar.timestamp bar.close

/-- The `for i in range(min_hist, len(df))` loop of the validator. -/
def vRunLoop (cfg : ValidatorConfig) (analyze : ℕ → TradeSignal) :
    List (ℕ × Bar) → VState → VState
  | [], st => st
  | (i, bar) :: rest, st => vRunLoop cfg analyze rest (vStep cfg analyze i bar st)

/-- `PaperTradingValidator.run`: iterate from `min_hist`, then force-close
any remaining position at the last close with slippage, reason
`"end_of_data"`. -/
def vRun (cfg : ValidatorConfig) (analyze : ℕ → TradeSignal) (min_hist : ℕ)
    (bars : List Bar) : VState :=
  let st0 : VState := { balance := cfg.initial_balance, position := none,
                        trades := [], equity_log := [], signals_log := [] }
  let st1 := vRunLoop cfg analyze (indexedFrom min_hist (bars.drop min_hist)) st0
  match st1.position, bars.getLast? with
  | some pos, some lastBar =>
    let exec_price := lastBar.close * (1 - cfg.slippage_pct)
    let bt := vClose cfg pos lastBar.timestamp exec_price st1.balance "end_of_data"
    { st1 with balance := bt.1, trades := st1.trades ++ [bt.2], position := none }
  | _, _ => st1

/-- `ValidationReport`, restricted to the fields the accessors and the
consistency comparator read. -/
structure ValidationReportR where
  initial_balance : ℚ
  final_balance : ℚ
  trades : List PaperTrade
deriving DecidableEq

/-- `ValidationReport.total_return_pct` (guards a zero initial balance). -/
def report_total_return_pct (r : ValidationReportR) : ℚ :=
  if r.initial_balance = 0 then 0
  else (r.final_balance - r.initial_balance) / r.initial_balance * 100

/-- `ValidationReport.num_trades`: only closed trades are counted. -/
def report_num_trades (r : ValidationReportR) : ℕ :=
  (r.trades.filter (fun t => decide (t.exit_time ≠ none))).length

/-- The dict returned by `PaperTradingValidator.compare_with_backtest`
(`match` is a Lean keyword, so that key is called `isMatch` here). -/
structure CompareResult where
  isMatch : Bool
  backtest_return_pct : ℚ
  paper_return_pct : ℚ
  return_diff_pct : ℚ
  backtest_trades : ℕ
  paper_trades : ℕ
  trades_diff : ℕ
  backtest_final_capital : ℚ
  paper_final_balance : ℚ
  capital_diff_pct : ℚ
deriving DecidableEq

/-- `PaperTradingValidator.compare_with_backtest`. -/
def compareWithBacktest (report : ValidationReportR) (backtest_result : BacktestResultR)
    (tolerance_pct : ℚ) : CompareResult :=
  let bt_return := total_return_pct backtest_result
  let pv_return := report_total_return_pct report
  let return_diff := |bt_return - pv_return|
  let bt_trades := num_trades backtest_result
  let pv_trades := report_num_trades report
  let trades_diff := ((bt_trades : ℤ) - (pv_trades : ℤ)).natAbs
  let bt_final := backtest_result.final_capital
  let pv_final := report.final_balance
  let capital_diff_pct := |bt_final - pv_final| / max bt_final 1 * 100
  { isMatch := decide (return_diff ≤ tolerance_pct) && decide (trades_diff ≤ 1)
               && decide (capital_diff_pct ≤ tolerance_pct),
    backtest_return_pct := bt_return, paper_return_pct := pv_return,
    return_diff_pct := return_diff,
    backtest_trades := bt_trades, paper_trades := pv_trades,
    trades_diff := trades_diff,
    backtest_final_capital := bt_final, paper_final_balance := pv_final,
    capital_diff_pct := capital_diff_pct }

/-- Simulated balance for paper trading (`PaperBalance`). -/
structure PaperBalance where
  currency : String
  free : ℚ
  used : ℚ := 0
deriving DecidableEq

/-- An open live position (`Position` in trading/live_engine.py). -/
structure LPosition where
  symbol : String
  side : PosSide
  entry_price : ℚ
  quantity : ℚ
  entry_time : ℕ
  stop_loss : Option ℚ := none
  take_profit : Option ℚ := none
deriving DecidableEq

/-- A `TradeRecord` of the live engine. -/
structure TradeRecord where
  timestamp : ℕ
  symbol : String
  side : OrderSide
  order_type : String
  quantity : ℚ
  price : ℚ
  fee : ℚ
  pnl : Option ℚ := none
deriving DecidableEq

/-- The simulated fill returned by the PAPER branch of `_execute_order`. -/
structure OrderResult where
  price : ℚ
  quantity : ℚ
  fee : ℚ
deriving DecidableEq

/-- Mutable state of `LiveTradingEngine`: `self.positions`,
`self.trade_history` and `self.paper_balances`, the dicts as association
lists keyed by symbol/currency. -/
structure LiveState where
  positions : List (String × LPosition)
  trade_history : List TradeRecord
  paper_balances : List (String × PaperBalance)
deriving DecidableEq

/-- Dict read with a zero default: `self.paper_balances.get(c, PaperBalance(c, 0))`. -/
def lookupBalance (bals : List (String × PaperBalance)) (c : String) : PaperBalance :=
  match bals.lookup c with
  | some b => b
  | none => { currency := c, free := 0 }

/-- Dict write: replace the entry for `c`, inserting it if absent. -/
def updBalance : List (String × PaperBalance) → String → PaperBalance →
    List (String × PaperBalance)
  | [], c, b => [(c, b)]
  | (c0, b0) :: rest, c, b =>
    if c0 = c then (c, b) :: rest else (c0, b0) :: updBalance rest c b

/-- Dict write for positions (`self.positions[symbol] = ...`). -/
def updPosition : List (String × LPosition) → String → LPosition →
    List (String × LPosition)
  | [], s, p => [(s, p)]
  | (s0, p0) :: rest, s, p =>
    if s0 = s then (s, p) :: rest else (s0, p0) :: updPosition rest s p

/-- Dict delete (`del self.positions[symbol]`). -/
def delPosition (ps : List (String × LPosition)) (s : String) :
    List (String × LPosition) :=
  ps.filter (fun q => decide (q.1 ≠ s))

/-- The PAPER branch of `LiveTradingEngine._execute_order` on the symbol
`base/quote`.  `current_price` is the ticker price `_get_current_price`
returned (`none` models a failed fetch).  The simulated slippage and the
0.1% fee are hard-coded in the source.  An insufficient free balance
rejects the order (`None`) without touching any balance. -/
def executeOrderPaper (st : LiveState) (base quote : String)
    (current_price : Option ℚ) (side : OrderSide) (quantity : ℚ) :
    LiveState × Option OrderResult :=
  match current_price with
  | none => (st, none)
  | some cp =>
    let exec_price := cp * (if side = OrderSide.buy then 1001 / 1000 else 999 / 1000)
    let fee := quantity * exec_price * (1 / 1000)
    match side with
    | .buy =>
      let cost := quantity * exec_price + fee
      if (lookupBalance st.paper_balances quote).free < cost then (st, none)
      else
        let q0 := lookupBalance st.paper_balances quote
        let bals1 := updBalance st.paper_balances quote { q0 with free := q0.free - cost }
        let b0 := lookupBalance bals1 base
        let bals2 := updBalance bals1 base { b0 with free := b0.free + quantity }
        ({ st with paper_balances := bals2 },
         some { price := exec_price, quantity := quantity, fee := fee })
    | .sell =>
      if (lookupBalance st.paper_balances base).free < quantity then (st, none)
      else
        let b0 := lookupBalance st.paper_balances base
        let bals1 := updBalance st.paper_balances base { b0 with free := b0.free - quantity }
        let q0 := lookupBalance bals1 quote
        let bals2 := updBalance bals1 quote
          { q0 with free := q0.free + (quantity * exec_price - fee) }
        ({ st with paper_balances := bals2 },
         some { price := exec_price, quantity := quantity, fee := fee })

/-- `LiveTradingEngine.open_position` in PAPER mode: refuse a second
position for the symbol, delegate to the order simulator, and only on a
fill record the `Position` and the entry `TradeRecord`. -/
def openPositionLive (st : LiveState) (base quote symbol : String)
    (current_price : Option ℚ) (side : PosSide) (quantity : ℚ)
    (stop_loss take_profit : Option ℚ) (now : ℕ) : LiveState × Bool :=
  if (st.positions.lookup symbol).isSome then (st, false)
  else
    let order_side : OrderSide := if side = PosSide.long then .buy else .sell
    let r := executeOrderPaper st base quote current_price order_side quantity
    match r.2 with
    | none => (r.1, false)
    | some result =>
      let st2 := { r.1 with
        positions := updPosition r.1.positions symbol
          { symbol := symbol, side := side, entry_price := result.price,
            quantity := quantity, entry_time := now, stop_loss := stop_loss,
            take_profit := take_profit },
        trade_history := r.1.trade_history ++
          [{ timestamp := now, symbol := symbol, side := order_side,
             order_type := "market", quantity := quantity,
             price := result.price, fee := result.fee }] }
      (st2, true)

/-- `LiveTradingEngine.close_position` in PAPER mode: with no open position
it returns `None` leaving the state untouched; otherwise it sells (for a
long) through the order simulator, records the exit `TradeRecord` with the
realized P&L and deletes the position.  The `reason` argument is accepted
and, as in the source, not stored anywhere. -/
def closePositionLive (st : LiveState) (base quote symbol : String)
    (current_price : Option ℚ) (reason : String) (now : ℕ) :
    LiveState × Option ℚ :=
  match st.positions.lookup symbol with
  | none => (st, none)
  | some position =>
    let order_side : OrderSide := if position.side = PosSide.long then .sell else .buy
    let r := executeOrderPaper st base quote current_price order_side position.quantity
    match r.2 with
    | none => (r.1, none)
    | some result =>
      let exit_price := result.price
      let fee := result.fee
      let pnl :=
        if position.side = PosSide.long then
          (exit_price - position.entry_price) * position.quantity - fee
        else
          (position.entry_price - exit_price) * position.quantity - fee
      let st2 := { r.1 with
        trade_history := r.1.trade_history ++
          [{ timestamp := now, symbol := symbol, side := order_side,
             order_type := "market", quantity := position.quantity,
             price := exit_price, fee := fee, pnl := some pnl }],
        positions := delPosition r.1.positions symbol }
      (st2, some pnl)

/-- One iteration of the `LiveTradingEngine.run_strategy` polling loop in
PAPER mode, after the candle window was fetched and the indicators were
computed.  `close` is the last candle's close (the loop's `current_price`
variable), `signal` is `strategy.analyze` on the last candle, and
`ticker_price` is the ticker price the paper order simulator uses.  The
signal is processed first; the stop-loss/take-profit check runs afterwards,
guarded by the `has_pos` flag read before the signal was processed, and
compares the stored levels against the bar close.  Besides the new state,
the list of `reason` arguments passed to `close_position` during the
iteration is returned, recording the order of the close calls. -/
def runStrategyIter (st : LiveState) (base quote symbol : String)
    (signal : TradeSignal) (close : ℚ) (ticker_price : Option ℚ)
    (position_size : ℚ) (now : ℕ) : LiveState × List String :=
  let has_pos := (st.positions.lookup symbol).isSome
  let step1 : LiveState × List String :=
    if signal.signal = Sig.buy ∧ ¬ has_pos then
      let balance := (lookupBalance st.paper_balances quote).free
      let trade_amount := balance * position_size
      let quantity := trade_amount / close
      if 0 < quantity then
        ((openPositionLive st base quote symbol ticker_price PosSide.long quantity
            signal.stop_loss signal.take_profit now).1, [])
      else (st, [])
    else if signal.signal = Sig.sell ∧ has_pos then
      ((closePositionLive st base quote symbol ticker_price "signal" now).1, ["signal"])
    else (st, [])
  if has_pos then
    match step1.1.positions.lookup symbol with
    | some position =>
      if truthy position.stop_loss ∧ close ≤ position.stop_loss.getD 0 then
        ((closePositionLive step1.1 base quote symbol ticker_price "stop_loss" now).1,
         step1.2 ++ ["stop_loss"])
      else if truthy position.take_profit ∧ position.take_profit.getD 0 ≤ close then
        ((closePositionLive step1.1 base quote symbol ticker_price "take_profit" now).1,
         step1.2 ++ ["take_profit"])
      else step1
    | none => step1
  else step1

/-! Concrete fixtures used by witness theorems. -/

/-- A strategy that holds on every bar. -/
def analyzeHold : ℕ → TradeSignal := fun _ => { signal := Sig.hold }

/-- A strategy that sells on every bar. -/
def analyzeSell : ℕ → TradeSignal := fun _ => { signal := Sig.sell }

/-- Engine parameters: 10000 capital, 0.1% fee, 0.05% slippage, full size. -/
def cfgW : EngineConfig :=
  { initial_capital := 10000, fee_percent := 1 / 1000,
    slippage_percent := 1 / 2000, position_size := 1 }

/-- An open long position with stop-loss 95 and take-profit 105. -/
def posW : Position :=
  { side := PosSide.long, entry_time := 0, entry_price := 100, quantity := 1,
    entry_fee := 10, stop_loss := some 95, take_profit := some 105 }

/-- Engine state holding `posW`. -/
def stW : EngineState :=
  { capital := 10000, position := some posW, trades := [], equity_curve := [] }

/-- A bar whose low breaches 95 and whose high breaches 105. -/
def barW : Bar := { timestamp := 7, high := 106, low := 94, close := 100 }

/-- A bar whose low stays above 95 while its high breaches 105, so only a
take-profit trigger can fire. -/
def barTPW : Bar := { timestamp := 9, high := 106, low := 96, close := 100 }

/-- Validator parameters matching `cfgW`. -/
def vcfgW : ValidatorConfig :=
  { initial_balance := 10000, fee_pct := 1 / 1000, slippage_pct := 1 / 2000,
    position_size := 1 }

/-- Validator position matching `posW`. -/
def vposW : VPosition :=
  { entry_time := 0, entry_price := 100, quantity := 1, entry_fee := 10,
    stop_loss := some 95, take_profit := some 105 }

/-- Validator state holding `vposW`. -/
def vstW : VState :=
  { balance := 10000, position := some vposW, trades := [], equity_log := [],
    signals_log := [] }

/-- A backtest result with no trades. -/
def resultEmptyW : BacktestResultR :=
  { initial_capital := 10000, final_capital := 10000, trades := [] }

/-- A backtest result with one winning trade. -/
def resultOneW : BacktestResultR :=
  { initial_capital := 10000, final_capital := 10100,
    trades := [{ entry_time := 0, exit_time := 1, side := PosSide.long,
                 entry_price := 100, exit_price := 110, quantity := 1,
                 pnl := 100, pnl_percent := 10, fee := 2 }] }

/-- Live state holding an open long position (stop-loss 95) on BTC/USDT,
with one BTC of base balance available to sell. -/
def lstW : LiveState :=
  { positions := [("BTC/USDT",
      { symbol := "BTC/USDT", side := PosSide.long, entry_price := 100,
        quantity := 1, entry_time := 0, stop_loss := some 95 })],
    trade_history := [],
    paper_balances := [("USDT", { currency := "USDT", free := 0 }),
                       ("BTC", { currency := "BTC", free := 1 })] }

/-- Live state holding an open long position with only a take-profit level
(105) on BTC/USDT, with one BTC of base balance available to sell. -/
def lstTPW : LiveState :=
  { positions := [("BTC/USDT",
      { symbol := "BTC/USDT", side := PosSide.long, entry_price := 100,
        quantity := 1, entry_time := 0, take_profit := some 105 })],
    trade_history := [],
    paper_balances := [("USDT", { currency := "USDT", free := 0 }),
                       ("BTC", { currency := "BTC", free := 1 })] }

/-- Live state with no position and only 50 USDT free. -/
def lstPoorW : LiveState :=
  { positions := [], trade_history := [],
    paper_balances := [("USDT", { currency := "USDT", free := 50 })] }

/-! Shared helper lemmas. -/

theorem truthy_some_iff (x : ℚ) : truthy (some x) = true ↔ x ≠ 0 := by
  simp [truthy]

theorem closePositionPos_equity (cfg : EngineConfig) (st : EngineState)
    (pos : Position) (ts : ℕ) (price : ℚ) :
    (closePositionPos cfg st pos ts price).1.equity_curve = st.equity_curve := rfl

theorem appendEquity_trades (st : EngineState) (ts : ℕ) (c : ℚ) :
    (appendEquity st ts c).trades = st.trades := rfl

theorem appendEquity_position (st : EngineState) (ts : ℕ) (c : ℚ) :
    (appendEquity st ts c).position = st.position := rfl

theorem appendEquity_capital (st : EngineState) (ts : ℕ) (c : ℚ) :
    (appendEquity st ts c).capital = st.capital := rfl

/-! Claim C10. -/

/-- C10: `BacktestResult.win_rate` returns 0.0 on an empty trade list
instead of dividing by zero, and `winningTrades/totalTrades*100` on any
non-empty trade list. -/
theorem win_rate_safe (r : BacktestResultR) :
    (r.trades = [] → win_rate r = 0) ∧
    (r.trades ≠ [] →
      win_rate r = (winning_trades r : ℚ) / (r.trades.length : ℚ) * 100) := by
  constructor
  · intro h; simp [win_rate, h]
  · intro h; simp [win_rate, h]

/-- Witness for C10 at an empty and at a one-trade result. -/
theorem win_rate_safe_witness :
    win_rate resultEmptyW = 0 ∧
    win_rate resultOneW
      = (winning_trades resultOneW : ℚ) / (resultOneW.trades.length : ℚ) * 100 :=
  ⟨(win_rate_safe resultEmptyW).1 rfl, (win_rate_safe resultOneW).2 (by decide)⟩

/-! Claim C8. -/

/-- C8: the consistency comparator declares a match exactly when the
absolute return-percentage difference is within tolerance, the absolute
trade-count difference is at most 1 and the final-capital percentage
difference is within tolerance, and it returns those three computed
differences alongside the boolean. -/
theorem compare_match_spec (report : ValidationReportR) (bt : BacktestResultR)
    (tolerance_pct : ℚ) :
    ((compareWithBacktest report bt tolerance_pct).isMatch = true ↔
      ((compareWithBacktest report bt tolerance_pct).return_diff_pct ≤ tolerance_pct ∧
       (compareWithBacktest report bt tolerance_pct).trades_diff ≤ 1 ∧
       (compareWithBacktest report bt tolerance_pct).capital_diff_pct ≤ tolerance_pct)) ∧
    (compareWithBacktest report bt tolerance_pct).return_diff_pct
      = |total_return_pct bt - report_total_return_pct report| ∧
    (compareWithBacktest report bt tolerance_pct).trades_diff
      = ((num_trades bt : ℤ) - (report_num_trades report : ℤ)).natAbs ∧
    (compareWithBacktest report bt tolerance_pct).capital_diff_pct
      = |bt.final_capital - report.final_balance| / max bt.final_capital 1 * 100 := by
  refine ⟨?_, rfl, rfl, rfl⟩
  simp [compareWithBacktest, Bool.and_eq_true, decide_eq_true_iff, and_assoc]

/-! Claim C3. -/

/-- C3: opening a position fills at `price*(1+slip)` for a buy (long entry)
and `price*(1-slip)` for a sell, takes `tradeCapital = capital*fraction`,
charges `fee = tradeCapital*feeRate`, and sizes the position to
`(capital*fraction - capital*fraction*feeRate) / execPrice` — both in the
backtest engine's `_open_position` and in the validator's BUY branch. -/
theorem open_position_quantity
    (cfg : EngineConfig) (st : EngineState) (ts : ℕ) (price : ℚ) (side : PosSide)
    (vcfg : ValidatorConfig) (vst : VState) (analyze : ℕ → TradeSignal) (i : ℕ) (bar : Bar)
    (hvpos : vst.position = none) (hvbuy : (analyze i).signal = Sig.buy) :
    (∃ pos, (openPosition cfg st ts price side).position = some pos ∧
      pos.entry_price = price * (if side = PosSide.long then 1 + cfg.slippage_percent
                                 else 1 - cfg.slippage_percent) ∧
      pos.entry_fee = st.capital * cfg.position_size * cfg.fee_percent ∧
      pos.quantity = (st.capital * cfg.position_size
            - st.capital * cfg.position_size * cfg.fee_percent)
          / (price * (if side = PosSide.long then 1 + cfg.slippage_percent
                      else 1 - cfg.slippage_percent))) ∧
    (∃ vpos, (vStepCore vcfg analyze i bar vst).position = some vpos ∧
      vpos.entry_price = bar.close * (1 + vcfg.slippage_pct) ∧
      vpos.entry_fee = vst.balance * vcfg.position_size * vcfg.fee_pct ∧
      vpos.quantity = (vst.balance * vcfg.position_size
            - vst.balance * vcfg.position_size * vcfg.fee_pct)
          / (bar.close * (1 + vcfg.slippage_pct))) := by
  constructor
  · refine ⟨_, rfl, ?_, ?_, ?_⟩
    · cases side <;> simp [openPosition, applySlippage, calculateFee]
    · cases side <;> simp [openPosition, applySlippage, calculateFee]
    · cases side <;> simp [openPosition, applySlippage, calculateFee]
  · have hres : (vStepCore vcfg analyze i bar vst).position
        = some { entry_time := bar.timestamp,
                 entry_price := bar.close * (1 + vcfg.slippage_pct),
                 quantity := (vst.balance * vcfg.position_size
                     - vst.balance * vcfg.position_size * vcfg.fee_pct)
                   / (bar.close * (1 + vcfg.slippage_pct)),
                 entry_fee := vst.balance * vcfg.position_size * vcfg.fee_pct,
                 stop_loss := (analyze i).stop_loss,
                 take_profit := (analyze i).take_profit } := by
      simp [vStepCore, vStepSignal, hvpos, hvbuy]
    exact ⟨_, hres, rfl, rfl, rfl⟩

/-- Witness for C3: engine open at price 100 and validator BUY bar. -/
theorem open_position_quantity_witness :
    (∃ pos, (openPosition cfgW (resetState cfgW) 3 100 PosSide.long).position = some pos ∧
      pos.entry_price = 100 * (if PosSide.long = PosSide.long
          then 1 + cfgW.slippage_percent else 1 - cfgW.slippage_percent) ∧
      pos.entry_fee = (resetState cfgW).capital * cfgW.position_size * cfgW.fee_percent ∧
      pos.quantity = ((resetState cfgW).capital * cfgW.position_size
            - (resetState cfgW).capital * cfgW.position_size * cfgW.fee_percent)
          / (100 * (if PosSide.long = PosSide.long
              then 1 + cfgW.slippage_percent else 1 - cfgW.slippage_percent))) ∧
    (∃ vpos, (vStepCore vcfgW (fun _ => { signal := Sig.buy }) 3 barW
        { balance := 10000, position := none, trades := [], equity_log := [],
          signals_log := [] }).position = some vpos ∧
      vpos.entry_price = barW.close * (1 + vcfgW.slippage_pct) ∧
      vpos.entry_fee = 10000 * vcfgW.position_size * vcfgW.fee_pct ∧
      vpos.quantity = (10000 * vcfgW.position_size
            - 10000 * vcfgW.position_size * vcfgW.fee_pct)
          / (barW.close * (1 + vcfgW.slippage_pct))) :=
  open_position_quantity cfgW (resetState cfgW) 3 100 PosSide.long vcfgW
    { balance := 10000, position := none, trades := [], equity_log := [],
      signals_log := [] }
    (fun _ => { signal := Sig.buy }) 3 barW rfl rfl

/-! Claim C4. -/

/-- C4: closing with no open position fails with the no-position error and
changes nothing: the backtest engine raises (modelled as `Except.error`,
returned before any state is produced, so the caller's state is untouched
and no trade exists), and the live engine returns `None` with the state
unchanged — no trade appended, capital and balances unmodified. -/
theorem close_no_position
    (cfg : EngineConfig) (st : EngineState) (ts : ℕ) (price : ℚ)
    (lst : LiveState) (base quote symbol reason : String) (cp : Option ℚ) (now : ℕ)
    (h1 : st.position = none) (h2 : lst.positions.lookup symbol = none) :
    closePosition cfg st ts price = Except.error CloseError.noPosition ∧
    closePositionLive lst base quote symbol cp reason now = (lst, none) := by
  constructor
  · simp [closePosition, h1]
  · simp [closePositionLive, h2]

/-- Witness for C4 on a freshly reset engine and an empty live state. -/
theorem close_no_position_witness :
    closePosition cfgW (resetState cfgW) 3 100 = Except.error CloseError.noPosition ∧
    closePositionLive { positions := [], trade_history := [], paper_balances := [] }
      "BTC" "USDT" "BTC/USDT" (some 100) "signal" 5
      = ({ positions := [], trade_history := [], paper_balances := [] }, none) :=
  close_no_position cfgW (resetState cfgW) 3 100
    { positions := [], trade_history := [], paper_balances := [] }
    "BTC" "USDT" "BTC/USDT" "signal" (some 100) 5 rfl rfl

/-! Claim C5. -/

/-- C5: closing an open position applies opposite-direction slippage to the
reference price, computes `grossPnl = (execPrice - entryPrice)*qty` for a
long (inverted for a short), `totalFee = entryFee + qty*execPrice*feeRate`,
`netPnl = grossPnl - totalFee`, `pnlPercent = netPnl/(entryPrice*qty)*100`,
adds exactly `netPnl` to the capital, appends the trade and clears the
position in the same transition (the validator's `_close` follows the same
arithmetic at its pre-slipped exit price and stores the close reason). -/
theorem close_position_math
    (cfg : EngineConfig) (st : EngineState) (pos : Position) (ts : ℕ) (price : ℚ)
    (vcfg : ValidatorConfig) (vpos : VPosition) (vts : ℕ) (vprice bal : ℚ)
    (reason : String)
    (hv : vpos.entry_price * vpos.quantity ≠ 0) :
    ((closePositionPos cfg st pos ts price).2.exit_price
        = applySlippage cfg price
            (if pos.side = PosSide.long then OrderSide.sell else OrderSide.buy)) ∧
    ((closePositionPos cfg st pos ts price).2.pnl
        = (if pos.side = PosSide.long then
             ((closePositionPos cfg st pos ts price).2.exit_price - pos.entry_price)
               * pos.quantity
           else
             (pos.entry_price - (closePositionPos cfg st pos ts price).2.exit_price)
               * pos.quantity)
          - (pos.entry_fee
              + pos.quantity * (closePositionPos cfg st pos ts price).2.exit_price
                  * cfg.fee_percent)) ∧
    ((closePositionPos cfg st pos ts price).2.fee
        = pos.entry_fee
            + pos.quantity * (closePositionPos cfg st pos ts price).2.exit_price
                * cfg.fee_percent) ∧
    ((closePositionPos cfg st pos ts price).2.pnl_percent
        = (closePositionPos cfg st pos ts price).2.pnl
            / (pos.entry_price * pos.quantity) * 100) ∧
    ((closePositionPos cfg st pos ts price).1.capital
        = st.capital + (closePositionPos cfg st pos ts price).2.pnl) ∧
    ((closePositionPos cfg st pos ts price).1.trades
        = st.trades ++ [(closePositionPos cfg st pos ts price).2]) ∧
    ((closePositionPos cfg st pos ts price).1.position = none) ∧
    ((vClose vcfg vpos vts vprice bal reason).1
        = bal + ((vprice - vpos.entry_price) * vpos.quantity
            - (vpos.entry_fee + vpos.quantity * vprice * vcfg.fee_pct))) ∧
    ((vClose vcfg vpos vts vprice bal reason).2.pnl_percent
        = some (((vprice - vpos.entry_price) * vpos.quantity
            - (vpos.entry_fee + vpos.quantity * vprice * vcfg.fee_pct))
            / (vpos.entry_price * vpos.quantity) * 100)) ∧
    ((vClose vcfg vpos vts vprice bal reason).2.exit_reason = reason) := by
  have h0 : ¬ (vpos.quantity * vpos.entry_price = 0) := by
    intro h
    exact hv (by rw [mul_comm] at h; exact h)
  refine ⟨rfl, ?_, ?_, ?_, ?_, rfl, rfl, ?_, ?_, rfl⟩
  · simp only [closePositionPos, calculateFee]
  · simp only [closePositionPos, calculateFee]
  · simp only [closePositionPos, calculateFee]
    ring_nf
  · simp only [closePositionPos, calculateFee]
  · simp only [vClose]
  · simp only [vClose, Option.some.injEq]
    rw [if_pos h0]
    ring_nf

/-- Witness for C5: closing `posW` at reference price 90. -/
theorem close_position_math_witness :
    ((closePositionPos cfgW stW posW 7 90).2.exit_price
        = applySlippage cfgW 90
            (if posW.side = PosSide.long then OrderSide.sell else OrderSide.buy)) ∧
    ((closePositionPos cfgW stW posW 7 90).2.pnl
        = (if posW.side = PosSide.long then
             ((closePositionPos cfgW stW posW 7 90).2.exit_price - posW.entry_price)
               * posW.quantity
           else
             (posW.entry_price - (closePositionPos cfgW stW posW 7 90).2.exit_price)
               * posW.quantity)
          - (posW.entry_fee
              + posW.quantity * (closePositionPos cfgW stW posW 7 90).2.exit_price
                  * cfgW.fee_percent)) ∧
    ((closePositionPos cfgW stW posW 7 90).2.fee
        = posW.entry_fee
            + posW.quantity * (closePositionPos cfgW stW posW 7 90).2.exit_price
                * cfgW.fee_percent) ∧
    ((closePositionPos cfgW stW posW 7 90).2.pnl_percent
        = (closePositionPos cfgW stW posW 7 90).2.pnl
            / (posW.entry_price * posW.quantity) * 100) ∧
    ((closePositionPos cfgW stW posW 7 90).1.capital
        = stW.capital + (closePositionPos cfgW stW posW 7 90).2.pnl) ∧
    ((closePositionPos cfgW stW posW 7 90).1.trades
        = stW.trades ++ [(closePositionPos cfgW stW posW 7 90).2]) ∧
    ((closePositionPos cfgW stW posW 7 90).1.position = none) ∧
    ((vClose vcfgW vposW 7 90 10000 "signal").1
        = 10000 + ((90 - vposW.entry_price) * vposW.quantity
            - (vposW.entry_fee + vposW.quantity * 90 * vcfgW.fee_pct))) ∧
    ((vClose vcfgW vposW 7 90 10000 "signal").2.pnl_percent
        = some (((90 - vposW.entry_price) * vposW.quantity
            - (vposW.entry_fee + vposW.quantity * 90 * vcfgW.fee_pct))
            / (vposW.entry_price * vposW.quantity) * 100)) ∧
    ((vClose vcfgW vposW 7 90 10000 "signal").2.exit_reason = "signal") :=
  close_position_math cfgW stW posW 7 90 vcfgW vposW 7 90 10000 "signal"
    (by norm_num [vposW])

/-! Claim C2. -/

/-- C2: on a bar breaching both the stored stop-loss and take-profit of an
open long position (`low ≤ stopLoss` and `takeProfit ≤ high`), the position
is closed by the stop-loss trigger — exactly one trade is appended, its
exit fill derives from the stop-loss price — and in the validator that
trade's `exit_reason` is `"stop_loss"`; no take-profit close happens on the
bar. -/
theorem stop_loss_precedence
    (cfg : EngineConfig) (analyze : ℕ → TradeSignal) (i : ℕ) (bar : Bar)
    (st : EngineState) (pos : Position) (sl tp : ℚ)
    (vcfg : ValidatorConfig) (vst : VState) (vpos : VPosition) (vsl vtp : ℚ)
    (hpos : st.position = some pos) (hside : pos.side = PosSide.long)
    (hsl : pos.stop_loss = some sl) (hsl0 : sl ≠ 0) (hlow : bar.low ≤ sl)
    (htp : pos.take_profit = some tp) (htp0 : tp ≠ 0) (hhigh : tp ≤ bar.high)
    (hvpos : vst.position = some vpos)
    (hvsl : vpos.stop_loss = some vsl) (hvsl0 : vsl ≠ 0) (hvlow : bar.low ≤ vsl)
    (hvtp : vpos.take_profit = some vtp) (hvtp0 : vtp ≠ 0) (hvhigh : vtp ≤ bar.high) :
    ((stepBar cfg analyze i bar st).trades
        = st.trades ++ [(closePositionPos cfg st pos bar.timestamp sl).2]) ∧
    ((closePositionPos cfg st pos bar.timestamp sl).2.exit_price
        = sl * (1 - cfg.slippage_percent)) ∧
    ((stepBar cfg analyze i bar st).position = none) ∧
    ((vStep vcfg analyze i bar vst).trades
        = vst.trades ++ [(vClose vcfg vpos bar.timestamp
            (vsl * (1 - vcfg.slippage_pct)) vst.balance "stop_loss").2]) ∧
    ((vClose vcfg vpos bar.timestamp (vsl * (1 - vcfg.slippage_pct))
        vst.balance "stop_loss").2.exit_reason = "stop_loss") ∧
    ((vStep vcfg analyze i bar vst).position = none) := by
  have htruthy : truthy (some sl) = true := (truthy_some_iff sl).mpr hsl0
  have hvtruthy : truthy (some vsl) = true := (truthy_some_iff vsl).mpr hvsl0
  refine ⟨?_, ?_, ?_, ?_, rfl, ?_⟩
  · simp [stepBar, stepBarCore, appendEquity, closePositionPos, hpos, hsl, hside,
      htruthy, hlow]
  · simp [closePositionPos, applySlippage, hside]
  · simp [stepBar, stepBarCore, appendEquity, closePositionPos, hpos, hsl, hside,
      htruthy, hlow]
  · simp [vStep, vStepCore, vAppendEquity, hvpos, hvsl, hvtruthy, hvlow]
  · simp [vStep, vStepCore, vAppendEquity, hvpos, hvsl, hvtruthy, hvlow]

/-- Witness for C2: `barW` (low 94, high 106) breaches both the stop-loss 95
and the take-profit 105 of `posW`/`vposW`. -/
theorem stop_loss_precedence_witness :
    ((stepBar cfgW analyzeHold 8 barW stW).trades
        = stW.trades ++ [(closePositionPos cfgW stW posW barW.timestamp 95).2]) ∧
    ((closePositionPos cfgW stW posW barW.timestamp 95).2.exit_price
        = 95 * (1 - cfgW.slippage_percent)) ∧
    ((stepBar cfgW analyzeHold 8 barW stW).position = none) ∧
    ((vStep vcfgW analyzeHold 8 barW vstW).trades
        = vstW.trades ++ [(vClose vcfgW vposW barW.timestamp
            (95 * (1 - vcfgW.slippage_pct)) vstW.balance "stop_loss").2]) ∧
    ((vClose vcfgW vposW barW.timestamp (95 * (1 - vcfgW.slippage_pct))
        vstW.balance "stop_loss").2.exit_reason = "stop_loss") ∧
    ((vStep vcfgW analyzeHold 8 barW vstW).position = none) :=
  stop_loss_precedence cfgW analyzeHold 8 barW stW posW 95 105 vcfgW vstW vposW 95 105
    rfl rfl rfl (by norm_num) (by norm_num [barW]) rfl (by norm_num)
    (by norm_num [barW]) rfl rfl (by norm_num) (by norm_num [barW]) rfl
    (by norm_num) (by norm_num [barW])

/-! Claim C6. -/

theorem storeRisk_equity (st : EngineState) (sig : TradeSignal) :
    (storeRisk st sig).equity_curve = st.equity_curve := by
  unfold storeRisk
  split <;> rfl

theorem stepSignal_equity (cfg : EngineConfig) (analyze : ℕ → TradeSignal)
    (i : ℕ) (bar : Bar) (st : EngineState) :
    (stepSignal cfg analyze i bar st).equity_curve = st.equity_curve := by
  simp only [stepSignal]
  cases hp : st.position <;> simp only [hp] <;> split <;>
    try simp [storeRisk_equity, openPosition]
  split <;> rfl

theorem stepBarCore_equity (cfg : EngineConfig) (analyze : ℕ → TradeSignal)
    (i : ℕ) (bar : Bar) (st : EngineState) :
    (stepBarCore cfg analyze i bar st).equity_curve = st.equity_curve := by
  unfold stepBarCore
  split
  · split
    · rfl
    · split
      · rfl
      · exact stepSignal_equity cfg analyze i bar st
  · exact stepSignal_equity cfg analyze i bar st

theorem stepBar_equity_map (cfg : EngineConfig) (analyze : ℕ → TradeSignal)
    (i : ℕ) (bar : Bar) (st : EngineState) :
    (stepBar cfg analyze i bar st).equity_curve.map (fun p => p.timestamp)
      = st.equity_curve.map (fun p => p.timestamp) ++ [bar.timestamp] := by
  simp [stepBar, appendEquity, stepBarCore_equity]

theorem runLoop_equity_map (cfg : EngineConfig) (analyze : ℕ → TradeSignal)
    (l : List (ℕ × Bar)) : ∀ st : EngineState,
    (runLoop cfg analyze l st).equity_curve.map (fun p => p.timestamp)
      = st.equity_curve.map (fun p => p.timestamp)
          ++ l.map (fun ib => ib.2.timestamp) := by
  induction l with
  | nil => intro st; simp [runLoop]
  | cons hd tl ih =>
    intro st
    cases hd with
    | mk i bar => simp [runLoop, ih, stepBar_equity_map]

theorem indexedFrom_map_snd (bs : List Bar) : ∀ n : ℕ,
    (indexedFrom n bs).map Prod.snd = bs := by
  induction bs with
  | nil => intro n; simp [indexedFrom]
  | cons b bs ih => intro n; simp [indexedFrom, ih]

theorem run_equity_eq_loop (cfg : EngineConfig) (analyze : ℕ → TradeSignal)
    (min_history : ℕ) (bars : List Bar) :
    (run cfg analyze min_history bars).equity_curve
      = (runLoop cfg analyze (indexedFrom min_history (bars.drop min_history))
          (resetState cfg)).equity_curve := by
  simp only [run]
  split
  · exact closePositionPos_equity _ _ _ _ _
  · rfl

/-- C6: a batch replay run emits exactly one equity point per processed bar
— the equity curve's timestamps are exactly the timestamps of the bars from
`requiredHistory` on, in order (so no gaps and no duplicates relative to
the bar table), and its length is `len(df) - requiredHistory`. -/
theorem equity_curve_one_per_bar (cfg : EngineConfig) (analyze : ℕ → TradeSignal)
    (min_history : ℕ) (bars : List Bar) :
    ((run cfg analyze min_history bars).equity_curve.map (fun p => p.timestamp)
      = (bars.drop min_history).map (fun b => b.timestamp)) ∧
    ((run cfg analyze min_history bars).equity_curve.length
      = bars.length - min_history) := by
  have hmap : (run cfg analyze min_history bars).equity_curve.map (fun p => p.timestamp)
      = (bars.drop min_history).map (fun b => b.timestamp) := by
    rw [run_equity_eq_loop, runLoop_equity_map]
    have h2 : (indexedFrom min_history (bars.drop min_history)).map
        (fun ib => ib.2.timestamp)
        = ((indexedFrom min_history (bars.drop min_history)).map Prod.snd).map
            (fun b => b.timestamp) := by
      rw [List.map_map]; rfl
    simp [resetState, h2, indexedFrom_map_snd]
  refine ⟨hmap, ?_⟩
  have hlen := congrArg List.length hmap
  simpa using hlen

/-! Claim C7. -/

theorem stepBarCore_hold (cfg : EngineConfig) (analyze : ℕ → TradeSignal)
    (i : ℕ) (bar : Bar) (st : EngineState)
    (hp : st.position = none) (hh : (analyze i).signal = Sig.hold) :
    stepBarCore cfg analyze i bar st = st := by
  simp [stepBarCore, stepSignal, hp, hh]

theorem runLoop_hold (cfg : EngineConfig) (analyze : ℕ → TradeSignal)
    (hh : ∀ i, (analyze i).signal = Sig.hold) (l : List (ℕ × Bar)) :
    ∀ st : EngineState, st.position = none →
    (runLoop cfg analyze l st).position = none ∧
    (runLoop cfg analyze l st).capital = st.capital ∧
    (runLoop cfg analyze l st).trades = st.trades := by
  induction l with
  | nil => intro st hp; exact ⟨hp, rfl, rfl⟩
  | cons hd tl ih =>
    intro st hp
    cases hd with
    | mk i bar =>
      have hstep : stepBar cfg analyze i bar st
          = appendEquity st bar.timestamp bar.close := by
        unfold stepBar
        rw [stepBarCore_hold cfg analyze i bar st hp (hh i)]
      have hp2 : (stepBar cfg analyze i bar st).position = none := by
        rw [hstep, appendEquity_position]; exact hp
      have h3 := ih (stepBar cfg analyze i bar st) hp2
      have hcons : runLoop cfg analyze ((i, bar) :: tl) st
          = runLoop cfg analyze tl (stepBar cfg analyze i bar st) := rfl
      refine ⟨?_, ?_, ?_⟩
      · rw [hcons]; exact h3.1
      · rw [hcons, h3.2.1, hstep, appendEquity_capital]
      · rw [hcons, h3.2.2, hstep, appendEquity_trades]

/-- C7: a strategy that returns Hold on every bar produces an empty trade
list and a final capital exactly equal to the initial capital. -/
theorem hold_only_no_trades (cfg : EngineConfig) (analyze : ℕ → TradeSignal)
    (min_history : ℕ) (bars : List Bar)
    (h : ∀ i, (analyze i).signal = Sig.hold) :
    (run cfg analyze min_history bars).trades = [] ∧
    (run cfg analyze min_history bars).capital = cfg.initial_capital := by
  have hloop := runLoop_hold cfg analyze h
    (indexedFrom min_history (bars.drop min_history)) (resetState cfg) rfl
  simp only [run]
  rcases hloop with ⟨hpos, hcap, htr⟩
  split
  · rename_i pos lastBar heq _
    rw [heq] at hpos
    exact absurd hpos (by simp)
  · exact ⟨htr, hcap⟩

/-- Witness for C7: the all-hold strategy over two bars. -/
theorem hold_only_no_trades_witness :
    (run cfgW analyzeHold 1 [barW, barW]).trades = [] ∧
    (run cfgW analyzeHold 1 [barW, barW]).capital = cfgW.initial_capital :=
  hold_only_no_trades cfgW analyzeHold 1 [barW, barW] (fun _ => rfl)

/-! Claim C9. -/

/-- C9: in paper mode, when the free quote balance cannot cover the
order cost (`quantity*execPrice + fee`), the simulated order is rejected
(`None`) without mutating any balance, and `open_position` consequently
returns failure with the whole engine state unchanged — no `Position` is
created, no `TradeRecord` appended, no `Balance` mutated. -/
theorem insufficient_funds_reject
    (lst : LiveState) (base quote symbol : String) (cp quantity : ℚ)
    (sl tp : Option ℚ) (now : ℕ)
    (hnopos : lst.positions.lookup symbol = none)
    (hinsuf : (lookupBalance lst.paper_balances quote).free
        < quantity * (cp * (1001 / 1000)) + quantity * (cp * (1001 / 1000)) * (1 / 1000)) :
    executeOrderPaper lst base quote (some cp) OrderSide.buy quantity = (lst, none) ∧
    openPositionLive lst base quote symbol (some cp) PosSide.long quantity sl tp now
      = (lst, false) := by
  have hexec : executeOrderPaper lst base quote (some cp) OrderSide.buy quantity
      = (lst, none) := by
    simp only [executeOrderPaper]
    rw [if_pos]
    exact hinsuf
  refine ⟨hexec, ?_⟩
  simp only [openPositionLive, hnopos, Option.isSome_none, Bool.false_eq_true,
    if_false, reduceIte]
  rw [hexec]

/-- Witness for C9: 50 USDT free cannot fund a 1 BTC buy at price 100. -/
theorem insufficient_funds_reject_witness :
    executeOrderPaper lstPoorW "BTC" "USDT" (some 100) OrderSide.buy 1
      = (lstPoorW, none) ∧
    openPositionLive lstPoorW "BTC" "USDT" "BTC/USDT" (some 100) PosSide.long 1
      none none 9 = (lstPoorW, false) :=
  insufficient_funds_reject lstPoorW "BTC" "USDT" "BTC/USDT" 100 1 none none 9 rfl
    (by norm_num [lstPoorW, lookupBalance])

/-! Claim C1. -/

theorem lookup_delPosition (ps : List (String × LPosition)) (s : String) :
    (delPosition ps s).lookup s = none := by
  induction ps with
  | nil => rfl
  | cons hd tl ih =>
    obtain ⟨k, v⟩ := hd
    simp only [delPosition] at ih
    by_cases h : k = s
    · have hdec : (decide ¬((k, v).1 = s)) = false := by simp [h]
      simp only [delPosition, List.filter_cons, hdec, Bool.false_eq_true, if_false]
      exact ih
    · have hdec : (decide ¬((k, v).1 = s)) = true := by simp [h]
      simp only [delPosition, List.filter_cons, hdec, if_true, List.lookup]
      rw [show (s == k) = false from beq_eq_false_iff_ne.mpr (Ne.symm h)]
      exact ih

/-- The successful PAPER sell-to-close of a long position: the exit trade
record derives from the ticker price `cp` (fill `cp * 0.999`), and the
position entry is deleted. -/
theorem closePositionLive_long_facts (lst : LiveState) (base quote symbol : String)
    (cp : ℚ) (reason : String) (now : ℕ) (pos : LPosition)
    (hlook : lst.positions.lookup symbol = some pos)
    (hside : pos.side = PosSide.long)
    (hbal : ¬((lookupBalance lst.paper_balances base).free < pos.quantity)) :
    ((closePositionLive lst base quote symbol (some cp) reason now).1.trade_history
        = lst.trade_history
          ++ [{ timestamp := now, symbol := symbol, side := OrderSide.sell,
                order_type := "market", quantity := pos.quantity,
                price := cp * (999 / 1000),
                fee := pos.quantity * (cp * (999 / 1000)) * (1 / 1000),
                pnl := some ((cp * (999 / 1000) - pos.entry_price) * pos.quantity
                  - pos.quantity * (cp * (999 / 1000)) * (1 / 1000)) }]) ∧
    ((closePositionLive lst base quote symbol (some cp) reason now).1.positions
        = delPosition lst.positions symbol) := by
  constructor <;> simp [closePositionLive, executeOrderPaper, hlook, hside, hbal]

/-- C1 (amended): in the batch and validation replay runners a fired
stop-loss (or, when the stop-loss does not fire, a fired take-profit)
closes the open position at the trigger price as the reference and the
bar's strategy signal is never evaluated (the step's outcome does not
depend on the strategy at all, and the validator logs no signal for the
bar), with stop-loss checked before take-profit.  In the live loop
iteration, however, the strategy signal is processed first and the
stop-loss/take-profit check runs afterwards against the bar close: a fired
trigger there — stop-loss, or take-profit when the stop-loss does not fire
— closes at the current ticker price with the live engine's own slippage
(`cp * 0.999`), not at the trigger price, and a SELL signal with an open
position closes with reason `"signal"` even when the stop-loss level is
breached. -/
theorem trigger_ordering_amended :
    (∀ (cfg : EngineConfig) (analyze analyze2 : ℕ → TradeSignal) (i : ℕ) (bar : Bar)
        (st : EngineState) (pos : Position) (sl : ℚ),
      st.position = some pos → pos.side = PosSide.long →
      pos.stop_loss = some sl → sl ≠ 0 → bar.low ≤ sl →
      stepBar cfg analyze i bar st
          = appendEquity (closePositionPos cfg st pos bar.timestamp sl).1
              bar.timestamp bar.close ∧
      stepBar cfg analyze i bar st = stepBar cfg analyze2 i bar st) ∧
    (∀ (cfg : EngineConfig) (analyze analyze2 : ℕ → TradeSignal) (i : ℕ) (bar : Bar)
        (st : EngineState) (pos : Position) (tp : ℚ),
      st.position = some pos →
      ¬(pos.side = PosSide.long ∧ truthy pos.stop_loss = true
          ∧ bar.low ≤ pos.stop_loss.getD 0) →
      pos.take_profit = some tp → tp ≠ 0 → tp ≤ bar.high →
      stepBar cfg analyze i bar st
          = appendEquity (closePositionPos cfg st pos bar.timestamp tp).1
              bar.timestamp bar.close ∧
      stepBar cfg analyze i bar st = stepBar cfg analyze2 i bar st) ∧
    (∀ (vcfg : ValidatorConfig) (analyze analyze2 : ℕ → TradeSignal) (i : ℕ) (bar : Bar)
        (vst : VState) (vpos : VPosition) (vsl : ℚ),
      vst.position = some vpos →
      vpos.stop_loss = some vsl → vsl ≠ 0 → bar.low ≤ vsl →
      (vStep vcfg analyze i bar vst).signals_log = vst.signals_log ∧
      (vStep vcfg analyze i bar vst).trades
          = vst.trades ++ [(vClose vcfg vpos bar.timestamp
              (vsl * (1 - vcfg.slippage_pct)) vst.balance "stop_loss").2] ∧
      vStep vcfg analyze i bar vst = vStep vcfg analyze2 i bar vst) ∧
    (∀ (vcfg : ValidatorConfig) (analyze analyze2 : ℕ → TradeSignal) (i : ℕ) (bar : Bar)
        (vst : VState) (vpos : VPosition) (vtp : ℚ),
      vst.position = some vpos →
      ¬(truthy vpos.stop_loss = true ∧ bar.low ≤ vpos.stop_loss.getD 0) →
      vpos.take_profit = some vtp → vtp ≠ 0 → vtp ≤ bar.high →
      (vStep vcfg analyze i bar vst).signals_log = vst.signals_log ∧
      (vStep vcfg analyze i bar vst).trades
          = vst.trades ++ [(vClose vcfg vpos bar.timestamp
              (vtp * (1 - vcfg.slippage_pct)) vst.balance "take_profit").2] ∧
      vStep vcfg analyze i bar vst = vStep vcfg analyze2 i bar vst) ∧
    (∀ (lst : LiveState) (base quote symbol : String) (sig : TradeSignal)
        (close cp ps : ℚ) (now : ℕ) (pos : LPosition) (sl : ℚ),
      lst.positions.lookup symbol = some pos → pos.side = PosSide.long →
      pos.stop_loss = some sl → sl ≠ 0 → close ≤ sl →
      sig.signal ≠ Sig.sell →
      ¬((lookupBalance lst.paper_balances base).free < pos.quantity) →
      (runStrategyIter lst base quote symbol sig close (some cp) ps now).2
          = ["stop_loss"] ∧
      (runStrategyIter lst base quote symbol sig close (some cp) ps now).1.trade_history
          = lst.trade_history
            ++ [{ timestamp := now, symbol := symbol, side := OrderSide.sell,
                  order_type := "market", quantity := pos.quantity,
                  price := cp * (999 / 1000),
                  fee := pos.quantity * (cp * (999 / 1000)) * (1 / 1000),
                  pnl := some ((cp * (999 / 1000) - pos.entry_price) * pos.quantity
                    - pos.quantity * (cp * (999 / 1000)) * (1 / 1000)) }]) ∧
    (∀ (lst : LiveState) (base quote symbol : String) (sig : TradeSignal)
        (close cp ps : ℚ) (now : ℕ) (pos : LPosition) (tp : ℚ),
      lst.positions.lookup symbol = some pos → pos.side = PosSide.long →
      ¬(truthy pos.stop_loss = true ∧ close ≤ pos.stop_loss.getD 0) →
      pos.take_profit = some tp → tp ≠ 0 → tp ≤ close →
      sig.signal ≠ Sig.sell →
      ¬((lookupBalance lst.paper_balances base).free < pos.quantity) →
      (runStrategyIter lst base quote symbol sig close (some cp) ps now).2
          = ["take_profit"] ∧
      (runStrategyIter lst base quote symbol sig close (some cp) ps now).1.trade_history
          = lst.trade_history
            ++ [{ timestamp := now, symbol := symbol, side := OrderSide.sell,
                  order_type := "market", quantity := pos.quantity,
                  price := cp * (999 / 1000),
                  fee := pos.quantity * (cp * (999 / 1000)) * (1 / 1000),
                  pnl := some ((cp * (999 / 1000) - pos.entry_price) * pos.quantity
                    - pos.quantity * (cp * (999 / 1000)) * (1 / 1000)) }]) ∧
    (∀ (lst : LiveState) (base quote symbol : String) (sig : TradeSignal)
        (close cp ps : ℚ) (now : ℕ) (pos : LPosition),
      lst.positions.lookup symbol = some pos → pos.side = PosSide.long →
      sig.signal = Sig.sell →
      ¬((lookupBalance lst.paper_balances base).free < pos.quantity) →
      (runStrategyIter lst base quote symbol sig close (some cp) ps now).2
          = ["signal"]) := by
  refine ⟨?_, ?_, ?_, ?_, ?_, ?_, ?_⟩
  · intro cfg analyze analyze2 i bar st pos sl hpos hside hsl hsl0 hlow
    have htruthy : truthy (some sl) = true := (truthy_some_iff sl).mpr hsl0
    constructor
    · simp [stepBar, stepBarCore, hpos, hsl, hside, htruthy, hlow]
    · simp [stepBar, stepBarCore, hpos, hsl, hside, htruthy, hlow]
  · intro cfg analyze analyze2 i bar st pos tp hpos hnosl htp htp0 hhigh
    have htruthy : truthy (some tp) = true := (truthy_some_iff tp).mpr htp0
    have hstep : ∀ a : ℕ → TradeSignal, stepBarCore cfg a i bar st
        = (closePositionPos cfg st pos bar.timestamp tp).1 := by
      intro a
      simp only [stepBarCore, hpos]
      rw [if_neg hnosl, if_pos]
      · rw [htp]; rfl
      · rw [htp]; exact ⟨htruthy, hhigh⟩
    constructor
    · unfold stepBar; rw [hstep analyze]
    · unfold stepBar; rw [hstep analyze, hstep analyze2]
  · intro vcfg analyze analyze2 i bar vst vpos vsl hvpos hvsl hvsl0 hvlow
    have hvtruthy : truthy (some vsl) = true := (truthy_some_iff vsl).mpr hvsl0
    refine ⟨?_, ?_, ?_⟩
    · simp [vStep, vStepCore, vAppendEquity, hvpos, hvsl, hvtruthy, hvlow]
    · simp [vStep, vStepCore, vAppendEquity, hvpos, hvsl, hvtruthy, hvlow]
    · simp [vStep, vStepCore, vAppendEquity, hvpos, hvsl, hvtruthy, hvlow]
  · intro vcfg analyze analyze2 i bar vst vpos vtp hvpos hnosl hvtp hvtp0 hvhigh
    have hvtruthy : truthy (some vtp) = true := (truthy_some_iff vtp).mpr hvtp0
    have hcore : ∀ a : ℕ → TradeSignal, vStepCore vcfg a i bar vst
        = { vst with
            balance := (vClose vcfg vpos bar.timestamp
              (vtp * (1 - vcfg.slippage_pct)) vst.balance "take_profit").1,
            trades := vst.trades ++ [(vClose vcfg vpos bar.timestamp
              (vtp * (1 - vcfg.slippage_pct)) vst.balance "take_profit").2],
            position := none } := by
      intro a
      simp only [vStepCore, hvpos]
      rw [if_neg hnosl, if_pos]
      · rw [hvtp]; rfl
      · rw [hvtp]; exact ⟨hvtruthy, hvhigh⟩
    refine ⟨?_, ?_, ?_⟩
    · unfold vStep; rw [hcore analyze]; rfl
    · unfold vStep; rw [hcore analyze]; rfl
    · unfold vStep; rw [hcore analyze, hcore analyze2]
  · intro lst base quote symbol sig close cp ps now pos sl hlook hside hsl hsl0
      hclose hsig hbal
    have htruthy : truthy (some sl) = true := (truthy_some_iff sl).mpr hsl0
    have hfacts := closePositionLive_long_facts lst base quote symbol cp
      "stop_loss" now pos hlook hside hbal
    constructor
    · simp [runStrategyIter, hlook, hsig, hsl, htruthy, hclose]
    · have hiter : (runStrategyIter lst base quote symbol sig close (some cp) ps now).1
          = (closePositionLive lst base quote symbol (some cp) "stop_loss" now).1 := by
        simp [runStrategyIter, hlook, hsig, hsl, htruthy, hclose]
      rw [hiter, hfacts.1]
  · intro lst base quote symbol sig close cp ps now pos tp hlook hside hnosl
      htp htp0 hle hsig hbal
    have htruthy : truthy (some tp) = true := (truthy_some_iff tp).mpr htp0
    have hfacts := closePositionLive_long_facts lst base quote symbol cp
      "take_profit" now pos hlook hside hbal
    constructor
    · simp [runStrategyIter, hlook, hsig, hnosl, htp, htruthy, hle]
    · have hiter : (runStrategyIter lst base quote symbol sig close (some cp) ps now).1
          = (closePositionLive lst base quote symbol (some cp) "take_profit" now).1 := by
        simp [runStrategyIter, hlook, hsig, hnosl, htp, htruthy, hle]
      rw [hiter, hfacts.1]
  · intro lst base quote symbol sig close cp ps now pos hlook hside hsig hbal
    have hfacts := closePositionLive_long_facts lst base quote symbol cp
      "signal" now pos hlook hside hbal
    have hnolook : ((closePositionLive lst base quote symbol (some cp) "signal"
        now).1.positions).lookup symbol = none := by
      rw [hfacts.2]; exact lookup_delPosition lst.positions symbol
    simp [runStrategyIter, hlook, hsig, hnolook]

/-- C1 counterexample: in the live loop iteration, with an open long
position whose stop-loss 95 is breached by the bar close 90 and a Hold
signal, the trigger does fire, but the close fills at the current ticker
price with the live slippage (90 * 0.999 = 89.91) — not at the trigger
price 95 nor at any slippage adjustment of it — contradicting the claim
that the ordering and trigger-price contract holds in every runner
including the live loop iteration. -/
theorem trigger_ordering_live_counterexample :
    ((runStrategyIter lstW "BTC" "USDT" "BTC/USDT" { signal := Sig.hold } 90 (some 90)
        (1 / 10) 5).2 = ["stop_loss"]) ∧
    ((runStrategyIter lstW "BTC" "USDT" "BTC/USDT" { signal := Sig.hold } 90 (some 90)
        (1 / 10) 5).1.trade_history.map (fun t => t.price) = [8991 / 100]) ∧
    ((8991 / 100 : ℚ) ≠ 95) ∧
    ((8991 / 100 : ℚ) ≠ 95 * (999 / 1000)) ∧
    ((8991 / 100 : ℚ) ≠ 95 * (1 - 1 / 2000)) := by
  refine ⟨?_, ?_, by norm_num, by norm_num, by norm_num⟩
  · simp [runStrategyIter, closePositionLive, executeOrderPaper, lstW,
      lookupBalance, updBalance, delPosition, truthy, List.lookup]
    norm_num
  · simp [runStrategyIter, closePositionLive, executeOrderPaper, lstW,
      lookupBalance, updBalance, delPosition, truthy, List.lookup]
    norm_num

/-- Witness for the amended C1, instantiating each part: engine and
validator stop-loss fire on `barW`, engine and validator take-profit fire
on `barTPW` (low 96 misses the stop 95), live stop-loss fire at close 90,
live take-profit fire at close 110 with no stored stop, and a live SELL
with an open breached position. -/
theorem trigger_ordering_amended_witness :
    (stepBar cfgW analyzeHold 8 barW stW
        = appendEquity (closePositionPos cfgW stW posW barW.timestamp 95).1
            barW.timestamp barW.close) ∧
    (stepBar cfgW analyzeHold 8 barW stW = stepBar cfgW analyzeSell 8 barW stW) ∧
    (stepBar cfgW analyzeHold 9 barTPW stW
        = appendEquity (closePositionPos cfgW stW posW barTPW.timestamp 105).1
            barTPW.timestamp barTPW.close) ∧
    (stepBar cfgW analyzeHold 9 barTPW stW = stepBar cfgW analyzeSell 9 barTPW stW) ∧
    ((vStep vcfgW analyzeHold 8 barW vstW).signals_log = vstW.signals_log) ∧
    ((vStep vcfgW analyzeHold 8 barW vstW).trades
        = vstW.trades ++ [(vClose vcfgW vposW barW.timestamp
            (95 * (1 - vcfgW.slippage_pct)) vstW.balance "stop_loss").2]) ∧
    ((vStep vcfgW analyzeHold 9 barTPW vstW).signals_log = vstW.signals_log) ∧
    ((vStep vcfgW analyzeHold 9 barTPW vstW).trades
        = vstW.trades ++ [(vClose vcfgW vposW barTPW.timestamp
            (105 * (1 - vcfgW.slippage_pct)) vstW.balance "take_profit").2]) ∧
    ((runStrategyIter lstW "BTC" "USDT" "BTC/USDT" { signal := Sig.hold } 90 (some 90)
        (1 / 10) 5).2 = ["stop_loss"]) ∧
    ((runStrategyIter lstTPW "BTC" "USDT" "BTC/USDT" { signal := Sig.hold } 110
        (some 110) (1 / 10) 5).2 = ["take_profit"]) ∧
    ((runStrategyIter lstW "BTC" "USDT" "BTC/USDT" { signal := Sig.sell } 90 (some 90)
        (1 / 10) 5).2 = ["signal"]) := by
  have hA := trigger_ordering_amended.1 cfgW analyzeHold analyzeSell 8 barW stW posW 95
    rfl rfl rfl (by norm_num) (by norm_num [barW])
  have hB := trigger_ordering_amended.2.1 cfgW analyzeHold analyzeSell 9 barTPW stW
    posW 105 rfl (by norm_num [posW, barTPW, truthy]) rfl (by norm_num)
    (by norm_num [barTPW])
  have hC := trigger_ordering_amended.2.2.1 vcfgW analyzeHold analyzeSell 8 barW vstW
    vposW 95 rfl rfl (by norm_num) (by norm_num [barW])
  have hD := trigger_ordering_amended.2.2.2.1 vcfgW analyzeHold analyzeSell 9 barTPW
    vstW vposW 105 rfl (by norm_num [vposW, barTPW, truthy]) rfl (by norm_num)
    (by norm_num [barTPW])
  have hE := trigger_ordering_amended.2.2.2.2.1 lstW "BTC" "USDT" "BTC/USDT"
    { signal := Sig.hold } 90 90 (1 / 10) 5
    { symbol := "BTC/USDT", side := PosSide.long, entry_price := 100,
      quantity := 1, entry_time := 0, stop_loss := some 95 } 95
    (by simp [lstW, List.lookup]) rfl rfl (by norm_num) (by norm_num) (by decide)
    (by simp [lstW, lookupBalance, List.lookup])
  have hG := trigger_ordering_amended.2.2.2.2.2.1 lstTPW "BTC" "USDT" "BTC/USDT"
    { signal := Sig.hold } 110 110 (1 / 10) 5
    { symbol := "BTC/USDT", side := PosSide.long, entry_price := 100,
      quantity := 1, entry_time := 0, take_profit := some 105 } 105
    (by simp [lstTPW, List.lookup]) rfl (by simp [truthy]) rfl (by norm_num)
    (by norm_num) (by decide)
    (by simp [lstTPW, lookupBalance, List.lookup])
  have hF := trigger_ordering_amended.2.2.2.2.2.2 lstW "BTC" "USDT" "BTC/USDT"
    { signal := Sig.sell } 90 90 (1 / 10) 5
    { symbol := "BTC/USDT", side := PosSide.long, entry_price := 100,
      quantity := 1, entry_time := 0, stop_loss := some 95 }
    (by simp [lstW, List.lookup]) rfl rfl
    (by simp [lstW, lookupBalance, List.lookup])
  exact ⟨hA.1, hA.2, hB.1, hB.2, hC.1, hC.2.1, hD.1, hD.2.1, hE.1, hG.1, hF⟩

end CryptoBot
